import Mathlib

/-!
Shallow embedding of the cancellable, progress-observable streaming copy
engine of `iso_maker` (`src/app.rs`): the `IsoMaker` state record with its
`update` message handler (the Transfer Lifecycle Controller), the
`copy_with_progress` engine loop, and the progress-draining task.

Modelling conventions:
  - `u64` counters are `Nat`; casts that can overflow or saturate are made
    explicit.
  - Rust `f32` values are modelled by `F32` below: NaN, +infinity, or a
    finite value idealised as an exact rational.  The zero-divisor cases of
    IEEE-754 division (which produce NaN or +infinity) are modelled exactly;
    finite quotients are idealised as exact rationals (every finite value
    appearing in a concrete theorem below is exactly representable in
    binary32, so no rounding is abstracted away where it matters).
  - The nondeterminism of one engine run (when the cancellation receiver is
    ready, which branch the unbiased `tokio::select!` polls first when both
    branches are ready, and how many bytes each `read` call returns) is
    resolved by an explicit `Schedule` oracle; theorems quantify over all
    schedules, counterexamples exhibit a realizable concrete schedule.
  - The `SourceChanged` and `DestChanged` message arms only drive the
    file-picker and device-picker dialogs, which the specification declares
    out of scope; they are omitted from the `Message` type.
  - Read and write I/O errors occurring after a successful open are not
    modelled: no claim below depends on them, and on every path the engine
    surfaces them as an immediate `Failed` outcome.
-/

/-- Model of a Rust `f32` value as the program uses it: NaN, positive
infinity, or a finite value idealised as an exact rational. -/
inductive F32 where
  | nan : F32
  | inf : F32
  | val : ℚ → F32
deriving DecidableEq

/-- Rust `a as f32 / b as f32` for unsigned integers `a`, `b`: IEEE-754
division, where dividing by zero yields NaN (for `0.0 / 0.0`) or +infinity
(for `x / 0.0` with `x > 0`). -/
def f32Div (a b : Nat) : F32 :=
  if b = 0 then (if a = 0 then F32.nan else F32.inf)
  else F32.val ((a : ℚ) / (b : ℚ))

/-- The largest value of Rust `u64`. -/
def U64MAX : Nat := 2 ^ 64 - 1

/-- Rust saturating float-to-integer cast `f as u64`: NaN maps to 0,
+infinity saturates to `u64::MAX`, a finite value truncates toward zero and
is clamped into the `u64` range. -/
def f32toU64 : F32 → Nat
  | F32.nan => 0
  | F32.inf => U64MAX
  | F32.val q => if q.num ≤ 0 then 0 else min (q.num.toNat / q.den) U64MAX

instance (ε α : Type) [DecidableEq ε] [DecidableEq α] : DecidableEq (Except ε α) := fun a b =>
  match a, b with
  | Except.ok x, Except.ok y =>
      if h : x = y then Decidable.isTrue (by rw [h])
      else Decidable.isFalse (by intro hc; cases hc; exact h rfl)
  | Except.error x, Except.error y =>
      if h : x = y then Decidable.isTrue (by rw [h])
      else Decidable.isFalse (by intro hc; cases hc; exact h rfl)
  | Except.ok _, Except.error _ => Decidable.isFalse (by intro hc; cases hc)
  | Except.error _, Except.ok _ => Decidable.isFalse (by intro hc; cases hc)

/-- The lifecycle messages of the iced application (`enum Message`),
omitting the two out-of-scope dialog arms. `CopyComplete` carries the
engine outcome `Result<(), String>`. -/
inductive Message where
  | StartCopy : Message
  | CopyProgress : Nat → Message
  | CopyComplete : Except String Unit → Message
  | Cancel : Message
deriving DecidableEq

/-- The state of the application (`struct IsoMaker`).  The field
`cancel_tx` records whether the `Option<mpsc::Sender<()>>` slot currently
holds a sender. -/
structure IsoMaker where
  source : String
  dest : String
  progress : F32
  total : Nat
  is_copying : Bool
  error : Option String
  cancel_tx : Bool
deriving DecidableEq

/-- `impl Default for IsoMaker`: empty paths, `progress = 0.0`,
`total = 0`, not copying, no error, no cancel sender.  Note that no message
handler ever writes `total`, so it keeps this initial value 0 forever. -/
def IsoMaker.default : IsoMaker :=
  { source := "", dest := "", progress := F32.val 0, total := 0,
    is_copying := false, error := none, cancel_tx := false }

/-- The observable effect of one `update` call: nothing, the batch spawned
by `StartCopy` (the `copy_with_progress` engine task plus the
progress-draining task over a fresh cancel/progress channel pair), or the
cancellation send performed synchronously by the `Cancel` arm. -/
inductive TaskEffect where
  | none : TaskEffect
  | startTransfer : String → String → TaskEffect
  | signalCancel : TaskEffect
deriving DecidableEq

/-- The `update` function of `src/app.rs` (the Transfer Lifecycle
Controller), restricted to the four lifecycle messages.  Returns the new
state together with the effect of the returned `Task<Message>` (plus, for
`Cancel`, the synchronous send into the cancellation channel). -/
def update (m : IsoMaker) : Message → IsoMaker × TaskEffect
  | Message.StartCopy =>
      if m.source.isEmpty || m.dest.isEmpty then
        ({ m with error := some "Source and Destination are both required" },
         TaskEffect.none)
      else
        ({ m with is_copying := true, error := none, cancel_tx := true },
         TaskEffect.startTransfer m.source m.dest)
  | Message.CopyProgress bytes =>
      ({ m with progress := f32Div bytes m.total }, TaskEffect.none)
  | Message.CopyComplete r =>
      match r with
      | Except.ok _ =>
          ({ m with is_copying := false, progress := F32.val 1 },
           TaskEffect.none)
      | Except.error e =>
          ({ m with is_copying := false, error := some e }, TaskEffect.none)
  | Message.Cancel =>
      ({ m with cancel_tx := false, is_copying := false },
       if m.cancel_tx then TaskEffect.signalCancel else TaskEffect.none)

/-- Chunk size of the engine loop: `vec![0; 4096 * 1024]`, one 4 MiB
buffer. -/
def CHUNK : Nat := 4096 * 1024

/-- Scheduling oracle resolving the nondeterminism of one engine run:
`cancelReadyAt i` says whether the `cancel_rx.recv()` future is ready at
loop iteration `i` (a cancellation was signalled, or the sender was
dropped); `pickCancel i` says whether the unbiased `tokio::select!` polls
the cancellation branch first when both branches are ready at iteration
`i`; `readSize i` is the byte count the i-th `src.read` call produces
before clamping (POSIX allows any positive count up to the buffer size
before end of file). -/
structure Schedule where
  cancelReadyAt : Nat → Bool
  pickCancel : Nat → Bool
  readSize : Nat → Nat

/-- The number of bytes one `read` into the 4 MiB buffer actually returns
when `rem` bytes of the source remain: 0 exactly at end of file, otherwise
between 1 and `min CHUNK rem`, steered by the schedule byte count `sz`. -/
def readAmount (sz rem : Nat) : Nat :=
  if rem = 0 then 0 else max 1 (min sz (min CHUNK rem))

theorem readAmount_eq_zero (sz rem : Nat) : readAmount sz rem = 0 ↔ rem = 0 := by
  unfold readAmount
  split <;> omega

theorem readAmount_le (sz rem : Nat) : readAmount sz rem ≤ rem := by
  unfold readAmount
  split <;> omega

/-- The accumulated result of the engine loop: its outcome, the progress
samples sent into `progress_tx`, the bytes written to the destination, and
whether the cancellation branch of the select was ever taken. -/
structure LoopResult where
  outcome : Except String Unit
  sends : List Nat
  written : List Nat
  cancelObserved : Bool
deriving DecidableEq

/-- The `loop` of `copy_with_progress`: on each iteration `tokio::select!`
races `cancel_rx.recv()` against `src.read(&mut buffer)`.  When the
cancellation branch is ready and the unbiased select polls it first, the
loop returns `Err("Cancelled")` at once.  Otherwise the read branch runs:
a read of 0 bytes breaks out with `Ok(())`; a read of `n > 0` bytes is
written fully to the destination, `copied` advances by `n`, and the sample
`(copied as f32 / total as f32) as u64` is sent (best effort) into the
progress channel. -/
def copyLoop (sched : Schedule) (total : Nat) (data : List Nat)
    (iter copied : Nat) (sends written : List Nat) : LoopResult :=
  if sched.cancelReadyAt iter && sched.pickCancel iter then
    { outcome := Except.error "Cancelled", sends := sends, written := written,
      cancelObserved := true }
  else if h0 : readAmount (sched.readSize iter) data.length = 0 then
    { outcome := Except.ok (), sends := sends, written := written,
      cancelObserved := false }
  else
    copyLoop sched total (data.drop (readAmount (sched.readSize iter) data.length))
      (iter + 1) (copied + readAmount (sched.readSize iter) data.length)
      (sends ++ [f32toU64 (f32Div (copied + readAmount (sched.readSize iter) data.length) total)])
      (written ++ data.take (readAmount (sched.readSize iter) data.length))
termination_by data.length
decreasing_by
  have h1 : data.length ≠ 0 := fun hz => h0 ((readAmount_eq_zero _ _).2 hz)
  have h2 : readAmount (sched.readSize iter) data.length ≤ data.length :=
    readAmount_le _ _
  simp only [List.length_drop]
  omega

/-- The filesystem facts one engine run depends on: the source bytes
(`none` when `File::open` fails), whether the metadata query succeeds, and
whether `File::create` on the destination succeeds, each failure with its
underlying error message. -/
structure FS where
  sourceBytes : Option (List Nat)
  sourceErr : String
  metadataOk : Bool
  metaErr : String
  destOk : Bool
  destErr : String

/-- The observable result of one `copy_with_progress` run. -/
structure RunResult where
  outcome : Except String Unit
  sends : List Nat
  written : List Nat
  destCreated : Bool
  cancelObserved : Bool
deriving DecidableEq

/-- The engine `copy_with_progress` of `src/app.rs`: opens the source
(failure: `Err("Source error: …")`, before the destination is touched),
reads `total` from the metadata (failure: `Err("Metadata error: …")`),
creates/truncates the destination (failure: `Err("Dest error: …")`), then
runs the chunked select loop with `copied = 0`. -/
def copy_with_progress (fs : FS) (sched : Schedule) : RunResult :=
  match fs.sourceBytes with
  | none =>
      { outcome := Except.error ("Source error: " ++ fs.sourceErr),
        sends := [], written := [], destCreated := false, cancelObserved := false }
  | some data =>
      if fs.metadataOk = false then
        { outcome := Except.error ("Metadata error: " ++ fs.metaErr),
          sends := [], written := [], destCreated := false, cancelObserved := false }
      else if fs.destOk = false then
        { outcome := Except.error ("Dest error: " ++ fs.destErr),
          sends := [], written := [], destCreated := false, cancelObserved := false }
      else
        { outcome := (copyLoop sched data.length data 0 0 [] []).outcome,
          sends := (copyLoop sched data.length data 0 0 [] []).sends,
          written := (copyLoop sched data.length data 0 0 [] []).written,
          destCreated := true,
          cancelObserved := (copyLoop sched data.length data 0 0 [] []).cancelObserved }

/-- The body of the progress-draining task: `while let Some(bytes) =
progress_rx.recv().await` overwrites `last_progress` with every received
sample and the future resolves to the last value once the channel closes
(`last_progress` starts at 0). -/
def drainLoop (last : Nat) : List Nat → Nat
  | [] => last
  | b :: rest => drainLoop b rest

/-- The messages the observer receives from the progress-draining task of
one transfer whose engine sent `samples`: `Task::perform` delivers exactly
one message, built from the value its future resolves to.  The drain
future resolves only once `progress_rx.recv()` returns `None`, which
happens only after the engine has returned and dropped `progress_tx` — so
every message in this list is delivered after the engine's terminal
outcome, none during the copy. -/
def drainMessages (samples : List Nat) : List Message :=
  [Message.CopyProgress (drainLoop 0 samples)]

theorem drainLoop_getLastD (acc : Nat) (l : List Nat) :
    drainLoop acc l = l.getLastD acc := by
  induction l generalizing acc with
  | nil => rfl
  | cons b rest ih =>
      rw [show drainLoop acc (b :: rest) = drainLoop b rest from rfl, ih,
        List.getLastD_cons]

theorem copyLoop_obs_aux (sched : Schedule) (total : Nat) :
    ∀ (n : Nat) (data : List Nat), data.length ≤ n →
    ∀ (iter copied : Nat) (sends written : List Nat),
    (copyLoop sched total data iter copied sends written).cancelObserved = true →
    (copyLoop sched total data iter copied sends written).outcome = Except.error "Cancelled" := by
  intro n
  induction n with
  | zero =>
      intro data hd iter copied sends written hobs
      rw [copyLoop] at hobs ⊢
      split_ifs at hobs ⊢ with h1 h2
      · rfl
      · exact absurd ((readAmount_eq_zero _ _).2 (by omega)) h2
  | succ n ih =>
      intro data hd iter copied sends written hobs
      rw [copyLoop] at hobs ⊢
      split_ifs at hobs ⊢ with h1 h2
      · rfl
      · have hk : 1 ≤ readAmount (sched.readSize iter) data.length := by
          rcases Nat.eq_zero_or_pos (readAmount (sched.readSize iter) data.length) with h | h
          · exact absurd h h2
          · exact h
        exact ih _ (by simp only [List.length_drop]; omega) _ _ _ _ hobs

theorem copyLoop_cancelObserved (sched : Schedule) (total : Nat)
    (data : List Nat) (iter copied : Nat) (sends written : List Nat) :
    (copyLoop sched total data iter copied sends written).cancelObserved = true →
    (copyLoop sched total data iter copied sends written).outcome = Except.error "Cancelled" :=
  copyLoop_obs_aux sched total data.length data (Nat.le_refl _) iter copied sends written

/-- Schedule of a run in which no cancellation is ever signalled and every
read fills as much of the buffer as the remaining source allows. -/
def schedNoCancel : Schedule :=
  { cancelReadyAt := fun _ => false, pickCancel := fun _ => false,
    readSize := fun _ => CHUNK }

/-- Schedule of a run in which the cancellation signal is pending from the
start and the unbiased select happens to poll the cancellation branch
first on every iteration. -/
def schedCancelWins : Schedule :=
  { cancelReadyAt := fun _ => true, pickCancel := fun _ => true,
    readSize := fun _ => CHUNK }

/-- Schedule of a run in which the cancellation signal is pending from the
start but the unbiased select happens to poll the read branch first on
every iteration. -/
def schedReadWins : Schedule :=
  { cancelReadyAt := fun _ => true, pickCancel := fun _ => false,
    readSize := fun _ => CHUNK }

/-- A readable 2-byte source with working metadata and destination. -/
def fsTwoByte : FS :=
  { sourceBytes := some [7, 7], sourceErr := "", metadataOk := true,
    metaErr := "", destOk := true, destErr := "" }

/-- A readable 1-byte source with working metadata and destination. -/
def fsOneByte : FS :=
  { sourceBytes := some [7], sourceErr := "", metadataOk := true,
    metaErr := "", destOk := true, destErr := "" }

/-- A readable empty source with working metadata and destination. -/
def fsEmpty : FS :=
  { sourceBytes := some [], sourceErr := "", metadataOk := true,
    metaErr := "", destOk := true, destErr := "" }

/-- C1: the claim fails on the code.  The engine maintains the cumulative
counter `copied` correctly, but the value pushed into the progress channel
is `(copied as f32 / total as f32) as u64` — the completion fraction
truncated to an integer — and not the cumulative byte counter.  At the
failing input (a 2-byte source read in one full chunk, no cancellation)
the engine performs one successful 2-byte chunk write and sends the single
sample 1 (= (2.0 / 2.0) as u64), where the claim requires the cumulative
`bytes_copied` value 2; after any non-final chunk write it would send 0.
The receiving side (`Message::CopyProgress(bytes)`) treats the payload as
a byte count and divides it by `total` again, so the two halves of the
program contradict each other: the spec records the intent, the sender is
the slip. -/
theorem c1_sample_carries_fraction_not_bytes :
    copy_with_progress fsTwoByte schedNoCancel =
      { outcome := Except.ok (), sends := [1], written := [7, 7],
        destCreated := true, cancelObserved := false } := by
  simp [copy_with_progress, fsTwoByte, schedNoCancel, copyLoop, readAmount,
    f32Div, f32toU64, CHUNK, U64MAX]

/-- C2 (amended): on a progress sample received while Running, the
controller sets the displayed fraction to the IEEE-754 quotient
`bytes as f32 / total as f32`; when `total` is zero (as it always is: no
message handler ever writes `total`, which keeps its default 0), this
quotient is NaN for `bytes = 0` and +infinity for `bytes > 0` — never the
indeterminate marker 0 the claim requires. -/
theorem c2_progress_fraction_amended (m : IsoMaker) (bytes : Nat)
    (hrun : m.is_copying = true) :
    (update m (Message.CopyProgress bytes)).1.progress = f32Div bytes m.total ∧
    (m.total = 0 →
      (update m (Message.CopyProgress bytes)).1.progress =
        if bytes = 0 then F32.nan else F32.inf) := by
  refine ⟨rfl, fun h0 => ?_⟩
  simp [update, f32Div, h0]

theorem c2_progress_fraction_amended_witness :
    (update { IsoMaker.default with is_copying := true }
        (Message.CopyProgress 5)).1.progress =
      f32Div 5 ({ IsoMaker.default with is_copying := true } : IsoMaker).total ∧
    (({ IsoMaker.default with is_copying := true } : IsoMaker).total = 0 →
      (update { IsoMaker.default with is_copying := true }
          (Message.CopyProgress 5)).1.progress =
        if (5 : Nat) = 0 then F32.nan else F32.inf) :=
  c2_progress_fraction_amended { IsoMaker.default with is_copying := true } 5 rfl

/-- C2 counterexample: in the Running state, with `total` at its constant
value 0, the progress sample 5 sets the displayed fraction to +infinity,
not to the indeterminate marker 0. -/
theorem c2_zero_total_not_zero_cex :
    ({ IsoMaker.default with is_copying := true } : IsoMaker).is_copying = true ∧
    ({ IsoMaker.default with is_copying := true } : IsoMaker).total = 0 ∧
    (update { IsoMaker.default with is_copying := true }
        (Message.CopyProgress 5)).1.progress = F32.inf ∧
    (update { IsoMaker.default with is_copying := true }
        (Message.CopyProgress 5)).1.progress ≠ F32.val 0 := by
  decide

/-- C3 (amended): the `StartCopy` arm checks only that both paths are
non-empty; `is_copying` is never consulted, so a `StartCopy` received
while a transfer is already Running is not rejected — it overwrites the
cancel sender and spawns a fresh engine/drain task pair all the same. -/
theorem c3_startcopy_no_rejection_amended (m : IsoMaker)
    (hs : m.source.isEmpty = false) (hd : m.dest.isEmpty = false) :
    update m Message.StartCopy =
      ({ m with is_copying := true, error := none, cancel_tx := true },
       TaskEffect.startTransfer m.source m.dest) := by
  simp [update, hs, hd]

/-- A controller state in which a transfer is currently Running. -/
def mRunning : IsoMaker :=
  { source := "a.iso", dest := "DiskX", progress := F32.val 0, total := 0,
    is_copying := true, error := none, cancel_tx := true }

theorem c3_startcopy_no_rejection_amended_witness :
    update mRunning Message.StartCopy =
      ({ mRunning with is_copying := true, error := none, cancel_tx := true },
       TaskEffect.startTransfer mRunning.source mRunning.dest) :=
  c3_startcopy_no_rejection_amended mRunning (by decide) (by decide)

/-- C3 counterexample: from a state that is already Running (with
non-empty paths), `StartCopy` is not rejected — the handler spawns a
second engine task. -/
theorem c3_second_engine_spawned_cex :
    mRunning.is_copying = true ∧
    (update mRunning Message.StartCopy).2 =
      TaskEffect.startTransfer "a.iso" "DiskX" ∧
    (update mRunning Message.StartCopy).2 ≠ TaskEffect.none := by
  decide

/-- C4: once the engine observes the cancellation signal (the select
returns its cancellation branch at some iteration), the loop returns at
that very iteration with `Err("Cancelled")`, handing back the byte and
sample accumulators unchanged — no further bytes are written to the
destination — and every run that has observed cancellation has outcome
`Err("Cancelled")`, never `Ok`. -/
theorem c4_cancel_observed_terminal (sched : Schedule) (total : Nat)
    (data : List Nat) (iter copied : Nat) (sends written : List Nat) :
    ((sched.cancelReadyAt iter && sched.pickCancel iter) = true →
      copyLoop sched total data iter copied sends written =
        { outcome := Except.error "Cancelled", sends := sends,
          written := written, cancelObserved := true }) ∧
    ((copyLoop sched total data iter copied sends written).cancelObserved = true →
      (copyLoop sched total data iter copied sends written).outcome =
        Except.error "Cancelled") := by
  constructor
  · intro h
    rw [copyLoop, if_pos h]
  · exact copyLoop_cancelObserved sched total data iter copied sends written

theorem c4_cancel_observed_terminal_witness :
    copyLoop schedCancelWins 2 [7, 7] 0 0 [] [] =
      { outcome := Except.error "Cancelled", sends := [], written := [],
        cancelObserved := true } :=
  (c4_cancel_observed_terminal schedCancelWins 2 [7, 7] 0 0 [] []).1 (by decide)

/-- C5: when the source cannot be opened, the engine returns
`Err("Source error: …")` — the source-phase prefix on the underlying
cause — and the destination is never created, nothing is written and no
sample is sent (`File::create` is only reached after a successful open). -/
theorem c5_source_open_failure (fs : FS) (sched : Schedule)
    (h : fs.sourceBytes = none) :
    (copy_with_progress fs sched).outcome =
      Except.error ("Source error: " ++ fs.sourceErr) ∧
    (copy_with_progress fs sched).destCreated = false ∧
    (copy_with_progress fs sched).written = [] ∧
    (copy_with_progress fs sched).sends = [] := by
  simp [copy_with_progress, h]

theorem c5_source_open_failure_witness :
    (copy_with_progress
        { sourceBytes := none, sourceErr := "No such file or directory (os error 2)",
          metadataOk := true, metaErr := "", destOk := true, destErr := "" }
        schedNoCancel).outcome =
      Except.error ("Source error: " ++ "No such file or directory (os error 2)") ∧
    (copy_with_progress
        { sourceBytes := none, sourceErr := "No such file or directory (os error 2)",
          metadataOk := true, metaErr := "", destOk := true, destErr := "" }
        schedNoCancel).destCreated = false ∧
    (copy_with_progress
        { sourceBytes := none, sourceErr := "No such file or directory (os error 2)",
          metadataOk := true, metaErr := "", destOk := true, destErr := "" }
        schedNoCancel).written = [] ∧
    (copy_with_progress
        { sourceBytes := none, sourceErr := "No such file or directory (os error 2)",
          metadataOk := true, metaErr := "", destOk := true, destErr := "" }
        schedNoCancel).sends = [] :=
  c5_source_open_failure _ schedNoCancel rfl

/-- C6 (amended): each loop iteration does race the two events, but the
`tokio::select!` here has no `biased;` clause, so ready branches are
polled in random order: when both are simultaneously ready the winner
follows the poll order, and cancellation has no fixed priority.  If the
select polls the cancellation branch first, the loop cancels immediately;
if it polls the read branch first, the chunk is read and written even
though cancellation is ready. -/
theorem c6_select_follows_poll_order_amended (sched : Schedule) (total : Nat)
    (data : List Nat) (iter copied : Nat) (sends written : List Nat)
    (hready : sched.cancelReadyAt iter = true) :
    (sched.pickCancel iter = true →
      copyLoop sched total data iter copied sends written =
        { outcome := Except.error "Cancelled", sends := sends,
          written := written, cancelObserved := true }) ∧
    (sched.pickCancel iter = false →
      readAmount (sched.readSize iter) data.length ≠ 0 →
      copyLoop sched total data iter copied sends written =
        copyLoop sched total
          (data.drop (readAmount (sched.readSize iter) data.length)) (iter + 1)
          (copied + readAmount (sched.readSize iter) data.length)
          (sends ++ [f32toU64 (f32Div (copied + readAmount (sched.readSize iter) data.length) total)])
          (written ++ data.take (readAmount (sched.readSize iter) data.length))) := by
  constructor
  · intro hp
    rw [copyLoop, if_pos (by simp [hready, hp])]
  · intro hp hr
    rw [copyLoop, if_neg (by simp [hready, hp]), dif_neg hr]

theorem c6_select_follows_poll_order_amended_witness :
    copyLoop schedCancelWins 1 [7] 0 0 [] [] =
      { outcome := Except.error "Cancelled", sends := [], written := [],
        cancelObserved := true } :=
  (c6_select_follows_poll_order_amended schedCancelWins 1 [7] 0 0 [] [] rfl).1 rfl

/-- C6 counterexample: with the cancellation signal pending from before
the first iteration but the unbiased select polling the read branch first
each time, the engine reads and writes the whole 1-byte source and
returns `Ok` — cancellation was simultaneously ready on every iteration
and yet was never given priority. -/
theorem c6_read_wins_despite_cancel_cex :
    (∀ i, schedReadWins.cancelReadyAt i = true) ∧
    copy_with_progress fsOneByte schedReadWins =
      { outcome := Except.ok (), sends := [1], written := [7],
        destCreated := true, cancelObserved := false } := by
  constructor
  · intro i
    rfl
  · simp [copy_with_progress, fsOneByte, schedReadWins, copyLoop, readAmount,
      f32Div, f32toU64, CHUNK, U64MAX]

/-- C7 (amended): a Cancel takes the sender out of the `cancel_tx` slot
and sends the cancellation signal, but it also synchronously sets
`is_copying` to false — the controller leaves the Running state on the
cancel call itself instead of staying Running until the engine outcome
arrives. -/
theorem c7_cancel_synchronous_exit_amended (m : IsoMaker) :
    (update m Message.Cancel).1.is_copying = false ∧
    (update m Message.Cancel).1.cancel_tx = false ∧
    ((update m Message.Cancel).2 = TaskEffect.signalCancel ↔ m.cancel_tx = true) := by
  refine ⟨rfl, rfl, ?_⟩
  by_cases h : m.cancel_tx <;> simp [update, h]

/-- C7 counterexample: a Cancel received while Running moves the
controller out of the Running state synchronously (`is_copying` becomes
false on the cancel call itself), contradicting the claimed
`Running --Cancel--> Running` self-loop. -/
theorem c7_leaves_running_cex :
    ({ IsoMaker.default with is_copying := true, cancel_tx := true } : IsoMaker).is_copying = true ∧
    (update { IsoMaker.default with is_copying := true, cancel_tx := true }
        Message.Cancel).1.is_copying = false := by
  decide

/-- A terminal controller state: last transfer failed, progress still
showing the value reached, error text still displayed. -/
def mTerminal : IsoMaker :=
  { source := "a.iso", dest := "DiskX", progress := F32.val 1, total := 0,
    is_copying := false, error := some "Write error: boom", cancel_tx := false }

/-- C8 (amended): a `StartCopy` accepted from a terminal state clears the
prior error (`error = None`) and enters Running, but it does not clear the
prior progress value: `progress` keeps whatever the previous transfer left
behind. -/
theorem c8_error_cleared_progress_kept_amended (m : IsoMaker)
    (hs : m.source.isEmpty = false) (hd : m.dest.isEmpty = false) :
    (update m Message.StartCopy).1.error = none ∧
    (update m Message.StartCopy).1.is_copying = true ∧
    (update m Message.StartCopy).1.progress = m.progress := by
  simp [update, hs, hd]

theorem c8_error_cleared_progress_kept_amended_witness :
    (update mTerminal Message.StartCopy).1.error = none ∧
    (update mTerminal Message.StartCopy).1.is_copying = true ∧
    (update mTerminal Message.StartCopy).1.progress = mTerminal.progress :=
  c8_error_cleared_progress_kept_amended mTerminal (by decide) (by decide)

/-- C8 counterexample: from a terminal state whose previous transfer left
`progress = 1.0`, an accepted `StartCopy` clears the error but keeps the
progress at 1.0 instead of discarding it. -/
theorem c8_progress_not_cleared_cex :
    mTerminal.is_copying = false ∧
    mTerminal.progress = F32.val 1 ∧
    (update mTerminal Message.StartCopy).1.error = none ∧
    (update mTerminal Message.StartCopy).1.progress = F32.val 1 ∧
    (update mTerminal Message.StartCopy).1.progress ≠ F32.val 0 := by
  decide

/-- C9 (amended): the drain task does continuously pull from the progress
channel and reduce to the latest value, but it republishes exactly once:
`Task::perform` turns the drain future into one single `CopyProgress`
message carrying the last sample (0 when none was sent), and the future
resolves only after the channel closes, i.e. after the engine has
terminated — the observer receives no progress update during the copy. -/
theorem c9_single_late_republish_amended (samples : List Nat) :
    drainMessages samples = [Message.CopyProgress (samples.getLastD 0)] ∧
    (drainMessages samples).length = 1 := by
  refine ⟨?_, rfl⟩
  rw [drainMessages, drainLoop_getLastD]

/-- C9 counterexample: for a transfer whose engine sent the three samples
4, 8, 10, the observer receives exactly one `CopyProgress` message — the
final value 10, delivered after the engine has terminated — not a stream
of updates during the copy. -/
theorem c9_no_updates_during_copy_cex :
    drainMessages [4, 8, 10] = [Message.CopyProgress 10] ∧
    (drainMessages [4, 8, 10]).length = 1 := by
  decide

/-- C10: for a readable empty source (with working metadata and
destination and no cancellation observed at the first iteration), the
engine creates/truncates the destination, the first read returns 0 bytes,
and the loop exits at once with `Ok(())`: no sample is ever sent and no
byte is written, leaving the destination at zero length. -/
theorem c10_empty_source_success (fs : FS) (sched : Schedule)
    (hsrc : fs.sourceBytes = some []) (hm : fs.metadataOk = true)
    (hd : fs.destOk = true)
    (hc : (sched.cancelReadyAt 0 && sched.pickCancel 0) = false) :
    copy_with_progress fs sched =
      { outcome := Except.ok (), sends := [], written := [],
        destCreated := true, cancelObserved := false } := by
  have hloop : copyLoop sched 0 [] 0 0 [] [] =
      { outcome := Except.ok (), sends := [], written := [],
        cancelObserved := false } := by
    rw [copyLoop, if_neg (by simp [hc]),
      dif_pos (show readAmount (sched.readSize 0) ([] : List Nat).length = 0 from
        (readAmount_eq_zero _ _).2 rfl)]
  simp [copy_with_progress, hsrc, hm, hd, hloop]

theorem c10_empty_source_success_witness :
    copy_with_progress fsEmpty schedNoCancel =
      { outcome := Except.ok (), sends := [], written := [],
        destCreated := true, cancelObserved := false } :=
  c10_empty_source_success fsEmpty schedNoCancel rfl rfl rfl rfl
